import Mathlib

/-!
Verification of the WindShowApp repository: the TCIPI scoring/classification
engine (two variants, `TCIPIapp.py` at the repository root and
`TCIPIPROJECT/TCIPIapp.py`) and the wind-station display (`testwind.py`).

Real-valued Python arithmetic is embedded over the rationals; the Python
built-in round (round-half-to-even) is embedded as pyround; np.interp on a
single two-point segment is embedded as interp.
-/

namespace WindShowApp

/-- Embedding of np.interp on one segment: clamp x to the segment and map
linearly.  NumPy returns y0 for x below x0 and y1 for x above x1. -/
def interp (x x0 x1 y0 y1 : ℚ) : ℚ :=
  if x ≤ x0 then y0
  else if x1 ≤ x then y1
  else y0 + (x - x0) * (y1 - y0) / (x1 - x0)

/-- Embedding of the Python built-in round to an integer: nearest integer,
with ties going to the even integer. -/
def pyround (q : ℚ) : ℤ :=
  if q - ⌊q⌋ < 1/2 then ⌊q⌋
  else if 1/2 < q - ⌊q⌋ then ⌊q⌋ + 1
  else if ⌊q⌋ % 2 = 0 then ⌊q⌋ else ⌊q⌋ + 1

/-- Function round_to_nearest_half, identical in both TCIPI variants:
round(value * 2) / 2. -/
def round_to_nearest_half (value : ℚ) : ℚ :=
  (pyround (value * 2) : ℚ) / 2

namespace TCIPIapp

/-- Function calculate_sst_score from `src/TCIPIapp.py` (lines 7-16). -/
def calculate_sst_score (sst : ℚ) : ℚ :=
  if 31 ≤ sst then interp sst 31 35 8 10
  else if 28 ≤ sst ∧ sst < 31 then interp sst 28 31 5 8
  else if 26 ≤ sst ∧ sst < 28 then interp sst 26 28 2 5
  else interp sst 20 26 0 3

/-- Function calculate_shear_score from `src/TCIPIapp.py` (lines 18-29). -/
def calculate_shear_score (shear : ℚ) : ℚ :=
  if shear < 5 then interp shear 0 5 10 8
  else if 5 ≤ shear ∧ shear < 10 then interp shear 5 10 8 6
  else if 10 ≤ shear ∧ shear < 15 then interp shear 10 15 6 4
  else if 15 ≤ shear ∧ shear ≤ 25 then interp shear 15 25 4 2
  else interp shear 25 40 2 0

/-- Function calculate_humidity_score from `src/TCIPIapp.py` (lines 31-40). -/
def calculate_humidity_score (humidity : ℚ) : ℚ :=
  if 75 < humidity then interp humidity 75 100 8 10
  else if 50 ≤ humidity ∧ humidity ≤ 75 then interp humidity 50 75 4 7
  else if 40 ≤ humidity ∧ humidity < 50 then 3
  else interp humidity 0 40 0 2

/-- Function calculate_convergence_score from `src/TCIPIapp.py` (lines 42-51). -/
def calculate_convergence_score (convergence : ℚ) : ℚ :=
  if 0 ≤ convergence ∧ convergence ≤ 10 then interp convergence 0 10 0 5
  else if 11 ≤ convergence ∧ convergence ≤ 20 then interp convergence 11 20 5 7
  else if 21 ≤ convergence ∧ convergence ≤ 31 then interp convergence 21 31 7 9
  else 10

/-- Function calculate_divergence_score from `src/TCIPIapp.py` (lines 53-62). -/
def calculate_divergence_score (divergence : ℚ) : ℚ :=
  if 0 ≤ divergence ∧ divergence ≤ 10 then interp divergence 0 10 0 5
  else if 11 ≤ divergence ∧ divergence ≤ 20 then interp divergence 11 20 5 7
  else if 21 ≤ divergence ∧ divergence ≤ 31 then interp divergence 21 31 7 9
  else 10

/-- Function calculate_tcipi from `src/TCIPIapp.py` (lines 64-67). -/
def calculate_tcipi (sst_score shear_score humidity_score divergence_score
    convergence_score : ℚ) : ℚ :=
  0.35 * sst_score + 0.30 * shear_score + 0.25 * humidity_score +
    0.05 * divergence_score + 0.05 * convergence_score

/-- Function get_tcipi_category from `src/TCIPIapp.py` (lines 73-84): returns the
category name together with its two display colours. -/
def get_tcipi_category (tcipi : ℚ) : String × String × String :=
  if 8.5 ≤ tcipi then ("Very High", "#FF6B6B", "#FFEBEE")
  else if 7.0 ≤ tcipi then ("High", "#FF9800", "#FFF3E0")
  else if 5.5 ≤ tcipi then ("Medium", "#FFC107", "#FFFDE7")
  else if 4.0 ≤ tcipi then ("Low", "#4CAF50", "#E8F5E8")
  else ("Very Low", "#2196F3", "#E3F2FD")

end TCIPIapp

namespace TCIPIPROJECT

/-- Function calculate_sst_score from `src/TCIPIPROJECT/TCIPIapp.py` (lines 7-16);
textually identical to the root variant. -/
def calculate_sst_score (sst : ℚ) : ℚ :=
  if 31 ≤ sst then interp sst 31 35 8 10
  else if 28 ≤ sst ∧ sst < 31 then interp sst 28 31 5 8
  else if 26 ≤ sst ∧ sst < 28 then interp sst 26 28 2 5
  else interp sst 20 26 0 3

/-- Function calculate_ohc_score from `src/TCIPIPROJECT/TCIPIapp.py` (lines 42-53). -/
def calculate_ohc_score (ohc : ℚ) : ℚ :=
  if ohc < 25 then 1
  else if 25 ≤ ohc ∧ ohc < 75 then interp ohc 25 74 2 4
  else if 75 ≤ ohc ∧ ohc < 125 then interp ohc 75 124 4 8
  else if 125 ≤ ohc ∧ ohc < 150 then 9
  else 10

/-- Function calculate_tcipi from `src/TCIPIPROJECT/TCIPIapp.py` (lines 66-69). -/
def calculate_tcipi (sst_score shear_score humidity_score divergence_score
    ohc_score : ℚ) : ℚ :=
  0.35 * sst_score + 0.30 * shear_score + 0.25 * humidity_score +
    0.05 * divergence_score + 0.05 * ohc_score

/-- Function apply_size_adjustment from `src/TCIPIPROJECT/TCIPIapp.py` (lines 71-84). -/
def apply_size_adjustment (tcipi : ℚ) (size category : String) : ℚ :=
  if size = "Small" then
    if category ∈ ["Medium", "High", "Very High"] then tcipi + 0.75
    else tcipi - 0.75
  else if size = "Large" then
    if category ∈ ["Medium", "High", "Very High"] then tcipi - 0.5
    else tcipi + 0.5
  else tcipi

/-- Function get_tcipi_category from `src/TCIPIPROJECT/TCIPIapp.py` (lines 90-101). -/
def get_tcipi_category (tcipi : ℚ) : String × String × String :=
  if 8.0 ≤ tcipi then ("Very High", "#FF6B6B", "#FFEBEE")
  else if 6.5 ≤ tcipi then ("High", "#FF9800", "#FFF3E0")
  else if 5.0 ≤ tcipi then ("Medium", "#FFC107", "#FFFDE7")
  else if 3.5 ≤ tcipi then ("Low", "#4CAF50", "#E8F5E8")
  else ("Very Low", "#2196F3", "#E3F2FD")

/-- The final_tcipi computation from src/TCIPIPROJECT/TCIPIapp.py
(lines 188-197): look up the base category, apply the size adjustment when a
size is selected, re-round to the nearest half and clamp to [0, 10]. -/
def final_tcipi_compute (base_tcipi : ℚ) (size_adjustment : String) : ℚ :=
  if size_adjustment ≠ "None (No Adjustment)" ∧ size_adjustment ≠ "Average" then
    let base_category := (get_tcipi_category base_tcipi).1
    let adjusted_tcipi := apply_size_adjustment base_tcipi size_adjustment base_category
    max 0 (min 10 (round_to_nearest_half adjusted_tcipi))
  else base_tcipi

end TCIPIPROJECT

namespace testwind

/-- Function get_border_color from `src/testwind.py` (lines 85-95): classifies
a wind speed into a storm-intensity colour band. -/
def get_border_color (speed : ℚ) : String :=
  if 111 ≤ speed then "#800080"
  else if 74 ≤ speed then "#FF0000"
  else if 39 ≤ speed then "#FFA500"
  else if 0 ≤ speed then "#002835"
  else "#ADD8E6"

/-- The direction table of wind_direction_arrow (`src/testwind.py`
lines 100-103). -/
def directions : List (ℚ × String) :=
  [(0, "↑"), (45, "↗"), (90, "→"), (135, "↘"),
   (180, "↓"), (225, "↙"), (270, "←"), (315, "↖"), (360, "↑")]

/-- The scan loop of wind_direction_arrow (`src/testwind.py` lines 104-108):
return the arrow of the first entry whose angle is within 22.5 degrees of the
degree argument (also testing the angle shifted down by 360), else the
fallback marker. -/
def scanArrows (degree : ℚ) : List (ℚ × String) → String
  | [] => "↺"
  | (angle, arrow) :: rest =>
    if |degree - angle| ≤ 22.5 ∨ |degree - (angle - 360)| ≤ 22.5 then arrow
    else scanArrows degree rest

/-- Function wind_direction_arrow from `src/testwind.py` (lines 98-108). -/
def wind_direction_arrow (degree : ℚ) : String :=
  scanArrows degree directions

/-- The JSON fields of one weather-provider response that fetch_wind_data
reads (`src/testwind.py` lines 118-133).  A missing optional field is `none`;
a missing `wind.speed` raises a KeyError in Python, caught by the except
clause. -/
structure WeatherData where
  wind_speed : Option ℚ
  wind_deg : Option ℚ
  pressure : Option ℚ
  rain_1h : Option ℚ
  rain_3h : Option ℚ

/-- The outcome of one station HTTP request: either a failure before a JSON
body is available (timeout, network error, non-2xx status via
raise_for_status, malformed JSON), or a parsed body. -/
inductive FetchOutcome where
  | failure : FetchOutcome
  | response : WeatherData → FetchOutcome

/-- The five values fetch_wind_data returns on success
(`src/testwind.py` line 134); `pressure = none` models the string sentinel
for a missing pressure field. -/
structure Reading where
  speed_mph : ℚ
  speed_kmh : ℚ
  direction : ℚ
  precipitation : ℚ
  pressure : Option ℚ

/-- Function fetch_wind_data from `src/testwind.py` (lines 110-136): extract
the reading from a response body; any failure (including a missing
`wind.speed` field, whose KeyError is caught by the same except clause)
yields the all-None null reading, embedded as `none`. -/
def fetch_wind_data : FetchOutcome → Option Reading
  | .failure => none
  | .response d =>
    match d.wind_speed with
    | none => none
    | some speed_m_s =>
      let speed_kmh := speed_m_s * 3.6
      let speed_mph := speed_kmh * 0.621371
      let direction := d.wind_deg.getD 0
      let precipitation :=
        match d.rain_1h with
        | some r => r
        | none =>
          match d.rain_3h with
          | some r => r
          | none => 0
      some ⟨speed_mph, speed_kmh, direction, precipitation, d.pressure⟩

/-- An outcome on which the Python body of fetch_wind_data raises (and the
except clause returns the null reading): a transport-level failure, or a
body with no `wind.speed` field. -/
def isFailure : FetchOutcome → Prop
  | .failure => True
  | .response d => d.wind_speed = none

end testwind

/-- The composite weight vector of both calculate_tcipi variants, in argument
order: SST, shear, humidity, divergence, fifth factor. -/
def weights : List ℚ := [0.35, 0.30, 0.25, 0.05, 0.05]

/-- A valid quantized sub-score: lies in [0, 10] and is an integer multiple
of 0.5. -/
def validSubScore (v : ℚ) : Prop :=
  (0 ≤ v ∧ v ≤ 10) ∧ ∃ k : ℤ, v = (k : ℚ) / 2

/-- Swapping the two output endpoints reflects the interpolation. -/
theorem interp_flip (x x0 x1 y0 y1 : ℚ) :
    interp x x0 x1 y0 y1 = y0 + y1 - interp x x0 x1 y1 y0 := by
  unfold interp
  split_ifs <;> ring

/-- On an increasing segment the interpolation stays between the two output
endpoints. -/
theorem interp_mem_of_le (x : ℚ) {x0 x1 y0 y1 : ℚ} (hx : x0 < x1) (hy : y0 ≤ y1) :
    y0 ≤ interp x x0 x1 y0 y1 ∧ interp x x0 x1 y0 y1 ≤ y1 := by
  unfold interp
  split_ifs with h1 h2
  · exact ⟨le_refl y0, hy⟩
  · exact ⟨hy, le_refl y1⟩
  · push_neg at h1 h2
    constructor
    · have hnum : 0 ≤ (x - x0) * (y1 - y0) :=
        mul_nonneg (by linarith) (by linarith)
      have hdiv := div_nonneg hnum (by linarith : (0:ℚ) ≤ x1 - x0)
      linarith
    · have hkey : (x - x0) * (y1 - y0) / (x1 - x0) ≤ y1 - y0 := by
        rw [div_le_iff₀ (by linarith : (0:ℚ) < x1 - x0)]
        have hprod : 0 ≤ (x1 - x) * (y1 - y0) :=
          mul_nonneg (by linarith) (by linarith)
        nlinarith
      linarith

/-- On a decreasing segment the interpolation stays between the two output
endpoints. -/
theorem interp_mem_of_ge (x : ℚ) {x0 x1 y0 y1 : ℚ} (hx : x0 < x1) (hy : y1 ≤ y0) :
    y1 ≤ interp x x0 x1 y0 y1 ∧ interp x x0 x1 y0 y1 ≤ y0 := by
  have h := interp_mem_of_le x hx hy
  rw [interp_flip x x0 x1 y0 y1]
  exact ⟨by linarith [h.2], by linarith [h.1]⟩

/-- The Python round is at least the floor of its argument. -/
theorem pyround_ge_floor (q : ℚ) : ⌊q⌋ ≤ pyround q := by
  unfold pyround
  split_ifs <;> omega

/-- The Python round is at most the ceiling of its argument. -/
theorem pyround_le_ceil (q : ℚ) : pyround q ≤ ⌈q⌉ := by
  have hceil : q - ⌊q⌋ > 0 → ⌊q⌋ + 1 ≤ ⌈q⌉ := by
    intro h
    exact Int.lt_ceil.mpr (by push_cast; linarith)
  unfold pyround
  split_ifs with h1 h2 h3
  · exact Int.floor_le_ceil q
  · exact hceil (by linarith)
  · exact Int.floor_le_ceil q
  · have heq : q - ⌊q⌋ = 1/2 := le_antisymm (not_lt.mp h2) (not_lt.mp h1)
    exact hceil (by rw [heq]; norm_num)

/-- Rounding to the nearest half keeps a value of [0, 10] inside [0, 10]. -/
theorem round_to_nearest_half_mem {v : ℚ} (h0 : 0 ≤ v) (h10 : v ≤ 10) :
    0 ≤ round_to_nearest_half v ∧ round_to_nearest_half v ≤ 10 := by
  unfold round_to_nearest_half
  have hf : (0:ℤ) ≤ ⌊v * 2⌋ := Int.le_floor.mpr (by push_cast; linarith)
  have hc : ⌈v * 2⌉ ≤ (20:ℤ) := Int.ceil_le.mpr (by push_cast; linarith)
  have hlo : (0:ℤ) ≤ pyround (v * 2) := le_trans hf (pyround_ge_floor (v * 2))
  have hhi : pyround (v * 2) ≤ (20:ℤ) := le_trans (pyround_le_ceil (v * 2)) hc
  have hlo' : (0:ℚ) ≤ (pyround (v * 2) : ℚ) := by exact_mod_cast hlo
  have hhi' : (pyround (v * 2) : ℚ) ≤ 20 := by exact_mod_cast hhi
  constructor <;> linarith

/-- Rounding a value of [0, 10] to the nearest half yields a valid quantized
sub-score. -/
theorem validSubScore_round {v : ℚ} (h0 : 0 ≤ v) (h10 : v ≤ 10) :
    validSubScore (round_to_nearest_half v) :=
  ⟨round_to_nearest_half_mem h0 h10, pyround (v * 2), rfl⟩

/-- The raw SST score lies in [0, 10] for every input. -/
theorem sst_raw_mem (s : ℚ) :
    0 ≤ TCIPIapp.calculate_sst_score s ∧ TCIPIapp.calculate_sst_score s ≤ 10 := by
  unfold TCIPIapp.calculate_sst_score
  split_ifs with h1 h2 h3
  · obtain ⟨ha, hb⟩ := interp_mem_of_le s (by norm_num : (31:ℚ) < 35)
      (by norm_num : (8:ℚ) ≤ 10)
    exact ⟨by linarith, hb⟩
  · obtain ⟨ha, hb⟩ := interp_mem_of_le s (by norm_num : (28:ℚ) < 31)
      (by norm_num : (5:ℚ) ≤ 8)
    exact ⟨by linarith, by linarith⟩
  · obtain ⟨ha, hb⟩ := interp_mem_of_le s (by norm_num : (26:ℚ) < 28)
      (by norm_num : (2:ℚ) ≤ 5)
    exact ⟨by linarith, by linarith⟩
  · obtain ⟨ha, hb⟩ := interp_mem_of_le s (by norm_num : (20:ℚ) < 26)
      (by norm_num : (0:ℚ) ≤ 3)
    exact ⟨ha, by linarith⟩

/-- The raw wind-shear score lies in [0, 10] for every input. -/
theorem shear_raw_mem (s : ℚ) :
    0 ≤ TCIPIapp.calculate_shear_score s ∧ TCIPIapp.calculate_shear_score s ≤ 10 := by
  unfold TCIPIapp.calculate_shear_score
  split_ifs with h1 h2 h3 h4
  · obtain ⟨ha, hb⟩ := interp_mem_of_ge s (by norm_num : (0:ℚ) < 5)
      (by norm_num : (8:ℚ) ≤ 10)
    exact ⟨by linarith, hb⟩
  · obtain ⟨ha, hb⟩ := interp_mem_of_ge s (by norm_num : (5:ℚ) < 10)
      (by norm_num : (6:ℚ) ≤ 8)
    exact ⟨by linarith, by linarith⟩
  · obtain ⟨ha, hb⟩ := interp_mem_of_ge s (by norm_num : (10:ℚ) < 15)
      (by norm_num : (4:ℚ) ≤ 6)
    exact ⟨by linarith, by linarith⟩
  · obtain ⟨ha, hb⟩ := interp_mem_of_ge s (by norm_num : (15:ℚ) < 25)
      (by norm_num : (2:ℚ) ≤ 4)
    exact ⟨by linarith, by linarith⟩
  · obtain ⟨ha, hb⟩ := interp_mem_of_ge s (by norm_num : (25:ℚ) < 40)
      (by norm_num : (0:ℚ) ≤ 2)
    exact ⟨ha, by linarith⟩

/-- The raw humidity score lies in [0, 10] for every input. -/
theorem humidity_raw_mem (h : ℚ) :
    0 ≤ TCIPIapp.calculate_humidity_score h ∧ TCIPIapp.calculate_humidity_score h ≤ 10 := by
  unfold TCIPIapp.calculate_humidity_score
  split_ifs with h1 h2 h3
  · obtain ⟨ha, hb⟩ := interp_mem_of_le h (by norm_num : (75:ℚ) < 100)
      (by norm_num : (8:ℚ) ≤ 10)
    exact ⟨by linarith, hb⟩
  · obtain ⟨ha, hb⟩ := interp_mem_of_le h (by norm_num : (50:ℚ) < 75)
      (by norm_num : (4:ℚ) ≤ 7)
    exact ⟨by linarith, by linarith⟩
  · exact ⟨by norm_num, by norm_num⟩
  · obtain ⟨ha, hb⟩ := interp_mem_of_le h (by norm_num : (0:ℚ) < 40)
      (by norm_num : (0:ℚ) ≤ 2)
    exact ⟨ha, by linarith⟩

/-- The raw convergence score lies in [0, 10] for every input. -/
theorem convergence_raw_mem (c : ℚ) :
    0 ≤ TCIPIapp.calculate_convergence_score c ∧
      TCIPIapp.calculate_convergence_score c ≤ 10 := by
  unfold TCIPIapp.calculate_convergence_score
  split_ifs with h1 h2 h3
  · obtain ⟨ha, hb⟩ := interp_mem_of_le c (by norm_num : (0:ℚ) < 10)
      (by norm_num : (0:ℚ) ≤ 5)
    exact ⟨ha, by linarith⟩
  · obtain ⟨ha, hb⟩ := interp_mem_of_le c (by norm_num : (11:ℚ) < 20)
      (by norm_num : (5:ℚ) ≤ 7)
    exact ⟨by linarith, by linarith⟩
  · obtain ⟨ha, hb⟩ := interp_mem_of_le c (by norm_num : (21:ℚ) < 31)
      (by norm_num : (7:ℚ) ≤ 9)
    exact ⟨by linarith, by linarith⟩
  · exact ⟨by norm_num, le_refl 10⟩

/-- The raw divergence score lies in [0, 10] for every input. -/
theorem divergence_raw_mem (d : ℚ) :
    0 ≤ TCIPIapp.calculate_divergence_score d ∧
      TCIPIapp.calculate_divergence_score d ≤ 10 := by
  have hsame : TCIPIapp.calculate_divergence_score d =
      TCIPIapp.calculate_convergence_score d := rfl
  rw [hsame]
  exact convergence_raw_mem d

/-- The raw ocean-heat-content score lies in [0, 10] for every input. -/
theorem ohc_raw_mem (o : ℚ) :
    0 ≤ TCIPIPROJECT.calculate_ohc_score o ∧
      TCIPIPROJECT.calculate_ohc_score o ≤ 10 := by
  unfold TCIPIPROJECT.calculate_ohc_score
  split_ifs with h1 h2 h3 h4
  · exact ⟨by norm_num, by norm_num⟩
  · obtain ⟨ha, hb⟩ := interp_mem_of_le o (by norm_num : (25:ℚ) < 74)
      (by norm_num : (2:ℚ) ≤ 4)
    exact ⟨by linarith, by linarith⟩
  · obtain ⟨ha, hb⟩ := interp_mem_of_le o (by norm_num : (75:ℚ) < 124)
      (by norm_num : (4:ℚ) ≤ 8)
    exact ⟨by linarith, by linarith⟩
  · exact ⟨by norm_num, by norm_num⟩
  · exact ⟨by norm_num, le_refl 10⟩

/-- C1: for every vector of five sub-scores, both calculate_tcipi variants
equal the weighted dot product with weights 0.35, 0.30, 0.25, 0.05, 0.05
(the fifth factor being convergence in the root variant and ocean heat
content in the project variant), and the weights sum to exactly 1. -/
theorem composite_weighted_dot_product (a b c d e : ℚ) :
    TCIPIapp.calculate_tcipi a b c d e =
      (List.zipWith (fun w v => w * v) weights [a, b, c, d, e]).sum ∧
    TCIPIPROJECT.calculate_tcipi a b c d e =
      (List.zipWith (fun w v => w * v) weights [a, b, c, d, e]).sum ∧
    weights.sum = 1 := by
  refine ⟨?_, ?_, ?_⟩ <;>
    simp [weights, TCIPIapp.calculate_tcipi, TCIPIPROJECT.calculate_tcipi] <;>
    ring

/-- C2: for every real-valued measurement input, each of the quantized
sub-scores (round_to_nearest_half of the raw score, for all six scoring
functions across the two variants) lies in [0, 10] and is an integer
multiple of 0.5. -/
theorem quantized_subscores_valid (x : ℚ) :
    validSubScore (round_to_nearest_half (TCIPIapp.calculate_sst_score x)) ∧
    validSubScore (round_to_nearest_half (TCIPIapp.calculate_shear_score x)) ∧
    validSubScore (round_to_nearest_half (TCIPIapp.calculate_humidity_score x)) ∧
    validSubScore (round_to_nearest_half (TCIPIapp.calculate_convergence_score x)) ∧
    validSubScore (round_to_nearest_half (TCIPIapp.calculate_divergence_score x)) ∧
    validSubScore (round_to_nearest_half (TCIPIPROJECT.calculate_ohc_score x)) ∧
    validSubScore (round_to_nearest_half (TCIPIPROJECT.calculate_sst_score x)) :=
  ⟨validSubScore_round (sst_raw_mem x).1 (sst_raw_mem x).2,
   validSubScore_round (shear_raw_mem x).1 (shear_raw_mem x).2,
   validSubScore_round (humidity_raw_mem x).1 (humidity_raw_mem x).2,
   validSubScore_round (convergence_raw_mem x).1 (convergence_raw_mem x).2,
   validSubScore_round (divergence_raw_mem x).1 (divergence_raw_mem x).2,
   validSubScore_round (ohc_raw_mem x).1 (ohc_raw_mem x).2,
   validSubScore_round (sst_raw_mem x).1 (sst_raw_mem x).2⟩

/-- C5: round_to_nearest_half sends 4.24 to 4.0 and 4.26 to 4.5, and the
boundary input 4.25 (exactly halfway between two half steps) resolves by the
Python default round-half-to-even rule to 4.0. -/
theorem round_half_boundary_examples :
    round_to_nearest_half 4.24 = 4 ∧ round_to_nearest_half 4.26 = 4.5 ∧
    round_to_nearest_half 4.25 = 4 := by
  refine ⟨?_, ?_, ?_⟩ <;> norm_num [round_to_nearest_half, pyround]

/-- C6: every divergence or convergence input in one of the uncovered gaps
(strictly between 10 and 11, strictly between 20 and 21, or above 31) falls
through to the final else band and scores the constant 10, a value inside
[0, 10]. -/
theorem divergence_offband_constant_ten (x : ℚ)
    (hx : (10 < x ∧ x < 11) ∨ (20 < x ∧ x < 21) ∨ 31 < x) :
    TCIPIapp.calculate_divergence_score x = 10 ∧
    TCIPIapp.calculate_convergence_score x = 10 := by
  have hn1 : ¬(0 ≤ x ∧ x ≤ 10) := by
    rcases hx with ⟨a, b⟩ | ⟨a, b⟩ | a <;> rintro ⟨c, d⟩ <;> linarith
  have hn2 : ¬(11 ≤ x ∧ x ≤ 20) := by
    rcases hx with ⟨a, b⟩ | ⟨a, b⟩ | a <;> rintro ⟨c, d⟩ <;> linarith
  have hn3 : ¬(21 ≤ x ∧ x ≤ 31) := by
    rcases hx with ⟨a, b⟩ | ⟨a, b⟩ | a <;> rintro ⟨c, d⟩ <;> linarith
  constructor
  · unfold TCIPIapp.calculate_divergence_score
    rw [if_neg hn1, if_neg hn2, if_neg hn3]
  · unfold TCIPIapp.calculate_convergence_score
    rw [if_neg hn1, if_neg hn2, if_neg hn3]

/-- Witness for C6 at the concrete off-band input 10.5. -/
theorem divergence_offband_constant_ten_witness :
    TCIPIapp.calculate_divergence_score 10.5 = 10 ∧
    TCIPIapp.calculate_convergence_score 10.5 = 10 :=
  divergence_offband_constant_ten 10.5 (Or.inl ⟨by norm_num, by norm_num⟩)

/-- C7: for every SST input at least 35, the raw SST sub-score is exactly 10
in both variants (the upper clamp of the interpolation holds), and so is the
quantized sub-score. -/
theorem sst_upper_clamp (s : ℚ) (h : 35 ≤ s) :
    TCIPIapp.calculate_sst_score s = 10 ∧
    TCIPIPROJECT.calculate_sst_score s = 10 ∧
    round_to_nearest_half (TCIPIapp.calculate_sst_score s) = 10 := by
  have hs : TCIPIapp.calculate_sst_score s = 10 := by
    unfold TCIPIapp.calculate_sst_score
    rw [if_pos (by linarith : (31:ℚ) ≤ s)]
    unfold interp
    rw [if_neg (by linarith : ¬s ≤ 31), if_pos (by linarith : (35:ℚ) ≤ s)]
  refine ⟨hs, hs, ?_⟩
  rw [hs]
  norm_num [round_to_nearest_half, pyround]

/-- Witness for C7 at the concrete input 36. -/
theorem sst_upper_clamp_witness :
    TCIPIapp.calculate_sst_score 36 = 10 ∧
    TCIPIPROJECT.calculate_sst_score 36 = 10 ∧
    round_to_nearest_half (TCIPIapp.calculate_sst_score 36) = 10 :=
  sst_upper_clamp 36 (by norm_num)

/-- C10: the SST sub-score is not monotone in SST: every input strictly
between 25 and 26 scores above 2.5, the input 26 scores exactly 2, and hence
some smaller input scores strictly above some larger one. -/
theorem sst_score_not_monotone :
    (∀ s : ℚ, 25 < s → s < 26 → 2.5 < TCIPIapp.calculate_sst_score s) ∧
    TCIPIapp.calculate_sst_score 26 = 2 ∧
    ∃ s1 s2 : ℚ, s1 < s2 ∧
      TCIPIapp.calculate_sst_score s2 < TCIPIapp.calculate_sst_score s1 := by
  have hmid : ∀ s : ℚ, 25 < s → s < 26 → 2.5 < TCIPIapp.calculate_sst_score s := by
    intro s ha hb
    unfold TCIPIapp.calculate_sst_score
    rw [if_neg (by intro hc; linarith : ¬(31:ℚ) ≤ s),
      if_neg (by rintro ⟨hc, -⟩; linarith : ¬((28:ℚ) ≤ s ∧ s < 31)),
      if_neg (by rintro ⟨hc, -⟩; linarith : ¬((26:ℚ) ≤ s ∧ s < 28))]
    unfold interp
    rw [if_neg (by intro hc; linarith : ¬s ≤ 20),
      if_neg (by intro hc; linarith : ¬(26:ℚ) ≤ s)]
    linarith
  refine ⟨hmid, by norm_num [TCIPIapp.calculate_sst_score, interp], 25.5, 26, by norm_num, ?_⟩
  norm_num [TCIPIapp.calculate_sst_score, interp]

/-- Witness for C10 at the concrete input 25.5. -/
theorem sst_score_not_monotone_witness :
    2.5 < TCIPIapp.calculate_sst_score 25.5 :=
  sst_score_not_monotone.1 25.5 (by norm_num) (by norm_num)

/-- Counterexample to C3: the pre-adjustment index 7.0 has category High in
the size-adjustment variant, yet selecting Small yields the final index 8.0
rather than the claimed 7.75 = min 10 (7 + 0.75): the code re-quantizes the
adjusted value to the nearest half (round-half-to-even) before clamping. -/
theorem small_high_plus_075_counterexample :
    (TCIPIPROJECT.get_tcipi_category 7).1 = "High" ∧
    TCIPIPROJECT.final_tcipi_compute 7 "Small" = 8 ∧
    min 10 ((7:ℚ) + 0.75) ≠ 8 := by
  refine ⟨by norm_num [TCIPIPROJECT.get_tcipi_category], ?_, by norm_num [min_def]⟩
  rw [TCIPIPROJECT.final_tcipi_compute]
  norm_num [TCIPIPROJECT.get_tcipi_category, TCIPIPROJECT.apply_size_adjustment,
    round_to_nearest_half, pyround]
  exact ⟨by decide, by decide⟩

/-- C3 as amended: in the size-adjustment variant, for every base index whose
pre-adjustment category is High, selecting Small yields a final index equal
to the base index plus 0.75, re-quantized to the nearest half
(round-half-to-even) and clamped to [0, 10]. -/
theorem small_high_final_requantized (b : ℚ)
    (h : (TCIPIPROJECT.get_tcipi_category b).1 = "High") :
    TCIPIPROJECT.final_tcipi_compute b "Small" =
      max 0 (min 10 (round_to_nearest_half (b + 0.75))) := by
  rw [TCIPIPROJECT.final_tcipi_compute]
  rw [if_pos (⟨by decide, by decide⟩ :
    ¬("Small" = "None (No Adjustment)") ∧ ¬("Small" = "Average"))]
  simp only [TCIPIPROJECT.apply_size_adjustment, h]
  norm_num

/-- Witness for the amended C3 at the concrete base index 7. -/
theorem small_high_final_requantized_witness :
    TCIPIPROJECT.final_tcipi_compute 7 "Small" =
      max 0 (min 10 (round_to_nearest_half (7 + 0.75))) :=
  small_high_final_requantized 7 (by norm_num [TCIPIPROJECT.get_tcipi_category])

/-- C4: both category classifiers are total functions onto the five category
names; the root (convergence) variant marks Very High exactly at index 8.5
and above while the project (ocean-heat-content) variant does so exactly at
8.0 and above; and on every index in [8.0, 8.5) the two variants disagree
(Very High versus High). -/
theorem category_total_and_variants_differ :
    (∀ t : ℚ, (TCIPIapp.get_tcipi_category t).1 ∈
      ["Very High", "High", "Medium", "Low", "Very Low"]) ∧
    (∀ t : ℚ, (TCIPIPROJECT.get_tcipi_category t).1 ∈
      ["Very High", "High", "Medium", "Low", "Very Low"]) ∧
    (∀ t : ℚ, (TCIPIapp.get_tcipi_category t).1 = "Very High" ↔ 8.5 ≤ t) ∧
    (∀ t : ℚ, (TCIPIPROJECT.get_tcipi_category t).1 = "Very High" ↔ 8.0 ≤ t) ∧
    (∀ t : ℚ, 8.0 ≤ t → t < 8.5 →
      (TCIPIPROJECT.get_tcipi_category t).1 = "Very High" ∧
      (TCIPIapp.get_tcipi_category t).1 = "High" ∧
      (TCIPIPROJECT.get_tcipi_category t).1 ≠ (TCIPIapp.get_tcipi_category t).1) := by
  refine ⟨?_, ?_, ?_, ?_, ?_⟩
  · intro t
    unfold TCIPIapp.get_tcipi_category
    split_ifs <;> decide
  · intro t
    unfold TCIPIPROJECT.get_tcipi_category
    split_ifs <;> decide
  · intro t
    unfold TCIPIapp.get_tcipi_category
    split_ifs with h1 h2 h3 h4
    · exact iff_of_true rfl h1
    · exact iff_of_false (by decide) h1
    · exact iff_of_false (by decide) h1
    · exact iff_of_false (by decide) h1
    · exact iff_of_false (by decide) h1
  · intro t
    unfold TCIPIPROJECT.get_tcipi_category
    split_ifs with h1 h2 h3 h4
    · exact iff_of_true rfl h1
    · exact iff_of_false (by decide) h1
    · exact iff_of_false (by decide) h1
    · exact iff_of_false (by decide) h1
    · exact iff_of_false (by decide) h1
  · intro t h8 h85
    have hproj : (TCIPIPROJECT.get_tcipi_category t).1 = "Very High" := by
      unfold TCIPIPROJECT.get_tcipi_category
      rw [if_pos h8]
    have happ : (TCIPIapp.get_tcipi_category t).1 = "High" := by
      unfold TCIPIapp.get_tcipi_category
      rw [if_neg (by linarith : ¬(8.5:ℚ) ≤ t), if_pos (by linarith : (7.0:ℚ) ≤ t)]
    exact ⟨hproj, happ, by rw [hproj, happ]; decide⟩

/-- Witness for C4 at the concrete index 8.25. -/
theorem category_variants_differ_witness :
    (TCIPIPROJECT.get_tcipi_category 8.25).1 = "Very High" ∧
    (TCIPIapp.get_tcipi_category 8.25).1 = "High" ∧
    (TCIPIPROJECT.get_tcipi_category 8.25).1 ≠ (TCIPIapp.get_tcipi_category 8.25).1 :=
  category_total_and_variants_differ.2.2.2.2 8.25 (by norm_num) (by norm_num)

/-- C8: fetch_wind_data is a total function of the single station response:
every failing outcome (transport failure or missing wind.speed field) yields
the null reading, and in a batch of responses the reading at each position
is fetch_wind_data of the response at that position alone, so one station
never affects another. -/
theorem fetch_failure_isolation :
    (∀ o : testwind.FetchOutcome, testwind.isFailure o →
      testwind.fetch_wind_data o = none) ∧
    (∀ (rs : List testwind.FetchOutcome) (i : ℕ),
      (rs.map testwind.fetch_wind_data).get? i =
        (rs.get? i).map testwind.fetch_wind_data) := by
  constructor
  · intro o ho
    cases o with
    | failure => rfl
    | response d =>
      have hnone : d.wind_speed = none := ho
      simp [testwind.fetch_wind_data, hnone]
  · intro rs i
    induction rs generalizing i with
    | nil => cases i <;> rfl
    | cons a t ih =>
      cases i with
      | zero => rfl
      | succ n => exact ih n

/-- Witness for C8 at the concrete transport-failure outcome. -/
theorem fetch_failure_isolation_witness :
    testwind.fetch_wind_data testwind.FetchOutcome.failure = none :=
  fetch_failure_isolation.1 testwind.FetchOutcome.failure True.intro

set_option maxHeartbeats 1600000 in
/-- C9: wind-direction bucketing: 0 and 360 degrees both map to the north
arrow; the boundary 22.5 maps deterministically to the first matching bucket
in scan order (north); every degree in [0, 360] yields one of the 8 compass
arrows; and the fallback marker is returned only when no bucket matches. -/
theorem wind_direction_bucketing :
    testwind.wind_direction_arrow 0 = "↑" ∧
    testwind.wind_direction_arrow 360 = "↑" ∧
    testwind.wind_direction_arrow 22.5 = "↑" ∧
    (∀ d : ℚ, 0 ≤ d → d ≤ 360 →
      testwind.wind_direction_arrow d ∈
        ["↑", "↗", "→", "↘", "↓", "↙", "←", "↖"]) ∧
    (∀ d : ℚ, testwind.wind_direction_arrow d = "↺" →
      ∀ p ∈ testwind.directions,
        ¬(|d - p.1| ≤ 22.5 ∨ |d - (p.1 - 360)| ≤ 22.5)) := by
  refine ⟨?_, ?_, ?_, ?_, ?_⟩
  · norm_num [testwind.wind_direction_arrow, testwind.scanArrows,
      testwind.directions, abs_le]
  · norm_num [testwind.wind_direction_arrow, testwind.scanArrows,
      testwind.directions, abs_le]
  · norm_num [testwind.wind_direction_arrow, testwind.scanArrows,
      testwind.directions, abs_le]
  · intro d h0 h360
    simp only [testwind.wind_direction_arrow, testwind.scanArrows,
      testwind.directions]
    split_ifs with h1 h2 h3 h4 h5 h6 h7 h8 h9
    · decide
    · decide
    · decide
    · decide
    · decide
    · decide
    · decide
    · decide
    · decide
    · exfalso
      push_neg at h1 h2 h3 h4 h5 h6 h7 h8 h9
      have hd1 : 22.5 < d := by
        rcases lt_abs.mp h1.1 with h | h <;> linarith
      have hd2 : 67.5 < d := by
        rcases lt_abs.mp h2.1 with h | h <;> linarith
      have hd3 : 112.5 < d := by
        rcases lt_abs.mp h3.1 with h | h <;> linarith
      have hd4 : 157.5 < d := by
        rcases lt_abs.mp h4.1 with h | h <;> linarith
      have hd5 : 202.5 < d := by
        rcases lt_abs.mp h5.1 with h | h <;> linarith
      have hd6 : 247.5 < d := by
        rcases lt_abs.mp h6.1 with h | h <;> linarith
      have hd7 : 292.5 < d := by
        rcases lt_abs.mp h7.1 with h | h <;> linarith
      have hd8 : 337.5 < d := by
        rcases lt_abs.mp h8.1 with h | h <;> linarith
      rcases lt_abs.mp h9.1 with h | h <;> linarith
  · intro d hd
    simp only [testwind.wind_direction_arrow, testwind.scanArrows,
      testwind.directions] at hd
    split_ifs at hd with h1 h2 h3 h4 h5 h6 h7 h8 h9
    · exact absurd hd (by decide)
    · exact absurd hd (by decide)
    · exact absurd hd (by decide)
    · exact absurd hd (by decide)
    · exact absurd hd (by decide)
    · exact absurd hd (by decide)
    · exact absurd hd (by decide)
    · exact absurd hd (by decide)
    · exact absurd hd (by decide)
    · intro p hp
      simp only [testwind.directions, List.mem_cons,
        List.not_mem_nil, or_false] at hp
      rcases hp with rfl | rfl | rfl | rfl | rfl | rfl | rfl | rfl | rfl
      · exact h1
      · exact h2
      · exact h3
      · exact h4
      · exact h5
      · exact h6
      · exact h7
      · exact h8
      · exact h9

/-- Witness for C9 at the concrete degree 100. -/
theorem wind_direction_bucketing_witness :
    testwind.wind_direction_arrow 100 ∈
      ["↑", "↗", "→", "↘", "↓", "↙", "←", "↖"] :=
  wind_direction_bucketing.2.2.2.1 100 (by norm_num) (by norm_num)

end WindShowApp
